import Mathlib

/-!
Shallow embedding of the transcription-session orchestration layer of the
audio-transcription tool (source: src/app/page.tsx; src/unnamed/part_001 is an
identical copy of the relevant functions).

JavaScript numbers are modelled as exact rationals; machine time (Date.now, in
milliseconds) is an explicit rational parameter.  The React useState/useRef
cells of the Home component are gathered into one SessionState record, and each
handler (handleWorkerMessage, clearProgressState, cancelTranscription, the
worker onerror callback) becomes a state-transition function.  The background
worker is modelled by a generation counter plus the list of requests posted to
the current worker instance since its creation.
-/

namespace AudioTranscription

/-- Coarse progress phase reported by the worker, from the ProgressPhase type. -/
inductive ProgressPhase
  | download
  | transcribing
deriving DecidableEq, Repr

/-- Worker-reported coarse status, from the WorkerStatus type. -/
inductive WorkerStatus
  | loading
  | ready
  | transcribing
  | error
deriving DecidableEq, Repr

/-- Session status of the page, from the TranscriptionStatus type. -/
inductive TranscriptionStatus
  | idle
  | loading
  | decoding
  | transcribing
  | ready
  | error
deriving DecidableEq, Repr

/-- A transcript segment, from the TranscriptSegment type.  The source field
named end is renamed stop because end is a Lean keyword. -/
structure TranscriptSegment where
  text : String
  start : ℚ
  stop : ℚ
deriving DecidableEq, Repr

/-- Outbound request to the worker, from the WorkerRequest union type. -/
inductive WorkerRequest
  | load
  | transcribe (requestId : ℕ) (audio : List ℚ) (language : Option String)
deriving DecidableEq, Repr

/-- Inbound message from the worker, from the WorkerResponse union type.  The
constructor for the message of type partial is named interim because partial is
a Lean keyword; the numeric fields of progress are kept in source order:
processedChunks, totalChunks, currentSlice, totalSlices, loaded, total. -/
inductive WorkerResponse
  | status (status : WorkerStatus) (requestId : Option ℕ)
      (detail : Option String) (device : Option String)
  | progress (phase : ProgressPhase) (progress : ℚ) (requestId : Option ℕ)
      (processedChunks totalChunks currentSlice totalSlices loaded total : Option ℚ)
  | interim (text : String) (requestId : ℕ)
  | segments (requestId : ℕ) (text : String) (segs : List TranscriptSegment)
  | result (text : String) (requestId : ℕ)
  | error (error : String) (requestId : Option ℕ)
deriving DecidableEq, Repr

/-- The observable state of the Home component: every useState cell and the
refs that the session controller reads or writes (activeRequestIdRef,
transcribeStartedAtRef, workerRef).  The worker instance itself is modelled by
workerGen (bumped each time a new Worker is constructed) and workerSent (the
requests posted to the current instance since its creation). -/
structure SessionState where
  activeRequestId : ℕ
  status : TranscriptionStatus
  progress : ℚ
  progressPhase : Option ProgressPhase
  processedChunks : Option ℚ
  totalChunks : Option ℚ
  etaSeconds : Option ℤ
  output : String
  segments : List TranscriptSegment
  error : Option String
  activeFileName : Option String
  selectedLanguage : Option String
  downloadedBytes : Option ℚ
  totalBytes : Option ℚ
  loadingDetail : Option String
  activeDevice : Option String
  currentSlice : Option ℚ
  totalSlices : Option ℚ
  transcribeStartedAt : Option ℚ
  isCancelling : Bool
  workerGen : ℕ
  workerSent : List WorkerRequest
deriving DecidableEq, Repr

/-- Source function clampProgress: clamp a reported percentage into the range
zero to one hundred. -/
def clampProgress (value : ℚ) : ℚ :=
  max 0 (min 100 value)

/-- JavaScript truthiness of an optional string: absent and empty strings are
falsy (used for the checks if (message.detail) and if (message.device)). -/
def strTruthy : Option String → Bool
  | none => false
  | some s => s != ""

/-- Source callback clearProgressState: resets every progress-related cell and
the transcribeStartedAtRef. -/
def clearProgressState (s : SessionState) : SessionState :=
  { s with
    progress := 0
    progressPhase := none
    processedChunks := none
    totalChunks := none
    etaSeconds := none
    downloadedBytes := none
    totalBytes := none
    loadingDetail := none
    currentSlice := none
    totalSlices := none
    transcribeStartedAt := none }

/-- The status-message branch of handleWorkerMessage, after the stale-requestId
guard has passed. -/
def applyStatusMessage (s : SessionState) (st : WorkerStatus)
    (detail device : Option String) : SessionState :=
  let s1 :=
    match st with
    | WorkerStatus.loading =>
        { s with
          status := TranscriptionStatus.loading
          loadingDetail := if strTruthy detail then detail else s.loadingDetail
          activeDevice := if strTruthy device then device else s.activeDevice }
    | WorkerStatus.transcribing =>
        { s with
          status := TranscriptionStatus.transcribing
          loadingDetail := none
          activeDevice := if strTruthy device then device else s.activeDevice }
    | WorkerStatus.ready =>
        { s with
          status := TranscriptionStatus.ready
          loadingDetail := none
          activeDevice := if strTruthy device then device else s.activeDevice
          progressPhase := none
          processedChunks := none
          totalChunks := none
          etaSeconds := none
          transcribeStartedAt := none }
    | WorkerStatus.error =>
        clearProgressState
          { s with status := TranscriptionStatus.error, loadingDetail := none }
  if strTruthy detail ∧ st = WorkerStatus.error then { s1 with error := detail } else s1

/-- The progress-message branch of handleWorkerMessage, after the stale-requestId
guard has passed.  The parameter now is the value of Date.now in milliseconds. -/
def applyProgressMessage (s : SessionState) (now : ℚ) (phase : ProgressPhase)
    (prog : ℚ) (processedChunks totalChunks currentSlice totalSlices loaded total :
    Option ℚ) : SessionState :=
  let s1 := { s with progressPhase := some phase, progress := clampProgress prog }
  match phase with
  | ProgressPhase.download =>
      { s1 with
        status := TranscriptionStatus.loading
        processedChunks := none
        totalChunks := none
        etaSeconds := none
        transcribeStartedAt := none
        downloadedBytes :=
          match loaded with
          | some v => some v
          | none => s.downloadedBytes
        totalBytes :=
          match total with
          | some v => if 0 < v then some v else s.totalBytes
          | none => s.totalBytes }
  | ProgressPhase.transcribing =>
      let s2 := { s1 with
        status := TranscriptionStatus.transcribing
        processedChunks := processedChunks
        totalChunks := totalChunks
        currentSlice :=
          match currentSlice with
          | some v => some v
          | none => s.currentSlice
        totalSlices :=
          match totalSlices with
          | some v => some v
          | none => s.totalSlices }
      let startedAt := s.transcribeStartedAt.getD now
      let s3 := { s2 with transcribeStartedAt := some startedAt }
      match processedChunks, totalChunks with
      | some processed, some total =>
          if 0 < processed ∧ processed ≤ total then
            let elapsedSeconds := (now - startedAt) / 1000
            let averageChunkSeconds := elapsedSeconds / processed
            let remainingChunks := max (total - processed) 0
            { s3 with etaSeconds := some ⌈averageChunkSeconds * remainingChunks⌉ }
          else
            { s3 with etaSeconds := none }
      | _, _ => { s3 with etaSeconds := none }

/-- Source callback handleWorkerMessage: routes one inbound worker message,
dropping messages whose requestId tag is stale.  Note that a progress message
is only checked for staleness when its phase is transcribing (the source guard
is message.phase === "transcribing" && typeof message.requestId === "number" &&
message.requestId !== activeRequestIdRef.current). -/
def handleWorkerMessage (s : SessionState) (now : ℚ) (msg : WorkerResponse) :
    SessionState :=
  match msg with
  | WorkerResponse.status st reqId detail device =>
      match reqId with
      | some r =>
          if r ≠ s.activeRequestId then s else applyStatusMessage s st detail device
      | none => applyStatusMessage s st detail device
  | WorkerResponse.progress phase prog reqId pc tc cs ts ld tt =>
      match phase, reqId with
      | ProgressPhase.transcribing, some r =>
          if r ≠ s.activeRequestId then s
          else applyProgressMessage s now phase prog pc tc cs ts ld tt
      | _, _ => applyProgressMessage s now phase prog pc tc cs ts ld tt
  | WorkerResponse.interim text reqId =>
      if reqId ≠ s.activeRequestId then s
      else { s with status := TranscriptionStatus.transcribing, output := text }
  | WorkerResponse.segments reqId text segs =>
      if reqId ≠ s.activeRequestId then s
      else
        { s with
          segments := segs
          output := text
          status := TranscriptionStatus.ready
          progressPhase := none
          processedChunks := none
          totalChunks := none
          etaSeconds := none
          transcribeStartedAt := none }
  | WorkerResponse.result text reqId =>
      if reqId ≠ s.activeRequestId then s
      else
        { s with
          output := text
          status := TranscriptionStatus.ready
          progressPhase := none
          processedChunks := none
          totalChunks := none
          etaSeconds := none
          transcribeStartedAt := none }
  | WorkerResponse.error err reqId =>
      match reqId with
      | some r =>
          if r ≠ s.activeRequestId then s
          else
            clearProgressState
              { s with status := TranscriptionStatus.error, error := some err }
      | none =>
          clearProgressState
            { s with status := TranscriptionStatus.error, error := some err }

/-- Source callback initializeWorker, on the path where Worker is available:
constructs a fresh Worker (modelled by bumping the generation counter and
emptying its sent-request log) and immediately posts the load request. -/
def initWorker (s : SessionState) : SessionState :=
  { s with workerGen := s.workerGen + 1, workerSent := [WorkerRequest.load] }

/-- Source callback cancelTranscription: bumps activeRequestIdRef, sets the
cancelling flag, resets status to idle, clears the error, clears all progress
state, terminates the current worker and starts a fresh one in load mode via
initializeWorker.  The 300 ms timeout that later clears the cancelling flag is
outside this synchronous transition. -/
def cancelTranscription (s : SessionState) : SessionState :=
  initWorker
    (clearProgressState
      { s with
        activeRequestId := s.activeRequestId + 1
        isCancelling := true
        status := TranscriptionStatus.idle
        error := none })

/-- JavaScript string fallback a || b used by the worker onerror handler. -/
def strOrElse (a b : String) : String :=
  if a = "" then b else a

/-- The worker.onerror callback installed by initializeWorker: a worker-level
fault sets status to error, stores the event message (or a fallback text) and
clears all progress state. -/
def handleWorkerFault (s : SessionState) (msg : String) : SessionState :=
  clearProgressState
    { s with
      status := TranscriptionStatus.error
      error := some (strOrElse msg "Worker encountered an unexpected error.") }

/-- The requestId tag carried by an inbound message, when present. -/
def messageRequestId : WorkerResponse → Option ℕ
  | WorkerResponse.status _ r _ _ => r
  | WorkerResponse.progress _ _ r _ _ _ _ _ _ => r
  | WorkerResponse.interim _ r => some r
  | WorkerResponse.segments r _ _ => some r
  | WorkerResponse.result _ r => some r
  | WorkerResponse.error _ r => r

/-- Whether a message is a progress message whose phase is download. -/
def isDownloadProgress : WorkerResponse → Bool
  | WorkerResponse.progress ProgressPhase.download _ _ _ _ _ _ _ _ => true
  | _ => false

/-- A baseline idle session state used by the concrete test instances. -/
def idleState : SessionState where
  activeRequestId := 0
  status := TranscriptionStatus.idle
  progress := 0
  progressPhase := none
  processedChunks := none
  totalChunks := none
  etaSeconds := none
  output := ""
  segments := []
  error := none
  activeFileName := none
  selectedLanguage := none
  downloadedBytes := none
  totalBytes := none
  loadingDetail := none
  activeDevice := none
  currentSlice := none
  totalSlices := none
  transcribeStartedAt := none
  isCancelling := false
  workerGen := 1
  workerSent := [WorkerRequest.load]

/-- JavaScript Math.round: round to the nearest integer, halves toward
positive infinity. -/
def jsRound (q : ℚ) : ℤ :=
  ⌊q + 1 / 2⌋

/-- The source position read by resampleMonoAudio for output index i:
i divided by the rate quotient outputSampleRate / inputSampleRate. -/
def sourcePosition (inputSampleRate outputSampleRate : ℚ) (i : ℕ) : ℚ :=
  (i : ℚ) / (outputSampleRate / inputSampleRate)

/-- The lower interpolation index: the floor of the source position. -/
def lowerIndex (inputSampleRate outputSampleRate : ℚ) (i : ℕ) : ℤ :=
  ⌊sourcePosition inputSampleRate outputSampleRate i⌋

/-- The upper interpolation index: the next index, clamped at the input's last
index. -/
def upperIndex (len : ℕ) (inputSampleRate outputSampleRate : ℚ) (i : ℕ) : ℤ :=
  min (lowerIndex inputSampleRate outputSampleRate i + 1) ((len : ℤ) - 1)

/-- The output length allocated by resampleMonoAudio:
Math.max(1, Math.round(input.length * ratio)). -/
def resampleOutputLength (len : ℕ) (inputSampleRate outputSampleRate : ℚ) : ℤ :=
  max 1 (jsRound ((len : ℚ) * (outputSampleRate / inputSampleRate)))

/-- Read a sample from a buffer at a signed index (out-of-range reads default
to zero; the safety theorem for resampling shows they never happen there). -/
def sampleAt (input : List ℚ) (idx : ℤ) : ℚ :=
  if 0 ≤ idx then input.getD idx.toNat 0 else 0

/-- Source function resampleMonoAudio: identity at equal rates, otherwise a
linearly interpolated buffer of length resampleOutputLength. -/
def resampleMonoAudio (input : List ℚ)
    (inputSampleRate outputSampleRate : ℚ) : List ℚ :=
  if inputSampleRate = outputSampleRate then input
  else
    (List.range (resampleOutputLength input.length inputSampleRate
        outputSampleRate).toNat).map fun i =>
      let sourceIndex := sourcePosition inputSampleRate outputSampleRate i
      let lower := lowerIndex inputSampleRate outputSampleRate i
      let upper := upperIndex input.length inputSampleRate outputSampleRate i
      let weight := sourceIndex - (lower : ℚ)
      sampleAt input lower * (1 - weight) + sampleAt input upper * weight

/-- A decoded audio buffer as consumed by downmixToMono: channel count, frame
count, and per-channel sample data (channelData ch i is sample i of channel
ch, the result of getChannelData(ch)[i]). -/
structure AudioBuffer where
  numberOfChannels : ℕ
  length : ℕ
  channelData : ℕ → ℕ → ℚ

/-- Source function downmixToMono: a single channel is copied through
unchanged; otherwise every channel is accumulated into the mono buffer and
each sample is then divided by the channel count. -/
def downmixToMono (b : AudioBuffer) : List ℚ :=
  if b.numberOfChannels = 1 then
    (List.range b.length).map fun i => b.channelData 0 i
  else
    (List.range b.length).map fun i =>
      ((List.range b.numberOfChannels).foldl
        (fun acc channel => acc + b.channelData channel i) 0) /
        (b.numberOfChannels : ℚ)

/-- The structured export record, from the TranscriptExportJson type. -/
structure TranscriptExportJson where
  version : ℕ
  createdAt : String
  fileName : Option String
  model : String
  language : Option String
  text : String
  segments : List TranscriptSegment
deriving DecidableEq, Repr

/-- Source callback buildJsonExportPayload: a pure projection of the current
transcript state plus the clock reading (new Date().toISOString() is modelled
by the explicit nowIso parameter). -/
def buildJsonExportPayload (s : SessionState) (nowIso : String) :
    TranscriptExportJson where
  version := 1
  createdAt := nowIso
  fileName := s.activeFileName
  model := "Xenova/whisper-small"
  language := s.selectedLanguage
  text := s.output
  segments := s.segments

/-- A session state whose current request counter is two, as after a second
submission. -/
def staleObserverState : SessionState :=
  { idleState with activeRequestId := 2 }

/-- A download-phase progress message tagged with the superseded requestId
one. -/
def staleDownloadMsg : WorkerResponse :=
  WorkerResponse.progress ProgressPhase.download 50 (some 1)
    none none none none (some 100) (some 200)

/-- A download-phase progress message for the current request of idleState,
reporting one hundred of two hundred bytes. -/
def currentDownloadMsg : WorkerResponse :=
  WorkerResponse.progress ProgressPhase.download 50 (some 0)
    none none none none (some 100) (some 200)

/-- A transcribe-phase progress message for the current request of idleState,
reporting one of four chunks. -/
def currentTranscribeMsg : WorkerResponse :=
  WorkerResponse.progress ProgressPhase.transcribing 10 (some 0)
    (some 1) (some 4) none none none none

/-- A session state mid-transcription: request one is active and the
transcribe phase started at millisecond zero. -/
def transcribingState : SessionState :=
  { idleState with
    activeRequestId := 1
    status := TranscriptionStatus.transcribing
    transcribeStartedAt := some 0 }

/-- A session state holding a streamed transcript together with in-flight
progress figures, used to check what an error preserves and what it clears. -/
def richState : SessionState :=
  { idleState with
    activeRequestId := 1
    status := TranscriptionStatus.transcribing
    progress := 40
    progressPhase := some ProgressPhase.transcribing
    processedChunks := some 2
    totalChunks := some 10
    etaSeconds := some 30
    output := "hello world"
    segments := [{ text := "hello world", start := 0, stop := 2 }]
    downloadedBytes := some 100
    totalBytes := some 200
    currentSlice := some 1
    totalSlices := some 2
    transcribeStartedAt := some 0 }

/-- A two-channel buffer of three frames whose first channel is all one and
whose second channel is all minus one. -/
def exampleStereoBuffer : AudioBuffer where
  numberOfChannels := 2
  length := 3
  channelData := fun ch _ => if ch = 0 then 1 else -1

/-! Helper lemmas shared by the claim theorems. -/

/-- Folding addition of f over the range list is the finite sum of f. -/
theorem foldl_add_range (f : ℕ → ℚ) (n : ℕ) :
    (List.range n).foldl (fun acc ch => acc + f ch) 0
      = ∑ ch ∈ Finset.range n, f ch := by
  induction n with
  | zero => simp
  | succ n ih =>
      rw [List.range_succ, List.foldl_append, Finset.sum_range_succ, ih]
      simp

/-- Reading a mapped range list inside its length gives the mapped value. -/
theorem getD_map_range (g : ℕ → ℚ) (n i : ℕ) (h : i < n) :
    ((List.range n).map g).getD i 0 = g i := by
  rw [List.getD_eq_getElem _ _ (by simpa using h)]
  simp

/-! Theorems settling the claims. -/

/-- C1, counterexample: a download-phase progress message tagged with the
superseded requestId one is not dropped while the current counter is two; it
changes the observable state (progress becomes fifty), so the claim that every
stale-tagged inbound message produces zero state change is false. -/
theorem stale_download_progress_changes_state :
    messageRequestId staleDownloadMsg = some 1 ∧
    (1 : ℕ) ≠ staleObserverState.activeRequestId ∧
    handleWorkerMessage staleObserverState 0 staleDownloadMsg ≠ staleObserverState ∧
    (handleWorkerMessage staleObserverState 0 staleDownloadMsg).progress = 50 ∧
    staleObserverState.progress = 0 := by
  refine ⟨rfl, by decide, by decide, by decide, rfl⟩

/-- C1, amended: every inbound worker message that carries a requestId not
equal to the current request counter is dropped with zero observable state
change, except a progress message whose phase is download (the staleness guard
for progress messages applies only to the transcribe phase). -/
theorem stale_message_dropped_unless_download_progress
    (s : SessionState) (now : ℚ) (msg : WorkerResponse) (r : ℕ)
    (h1 : messageRequestId msg = some r) (h2 : r ≠ s.activeRequestId)
    (h3 : isDownloadProgress msg = false) :
    handleWorkerMessage s now msg = s := by
  cases msg with
  | status st reqId detail device =>
      cases reqId with
      | none => simp [messageRequestId] at h1
      | some r' =>
          simp only [messageRequestId, Option.some.injEq] at h1
          subst h1
          simp [handleWorkerMessage, h2]
  | progress phase prog reqId pc tc cs ts ld tt =>
      cases phase with
      | download => simp [isDownloadProgress] at h3
      | transcribing =>
          cases reqId with
          | none => simp [messageRequestId] at h1
          | some r' =>
              simp only [messageRequestId, Option.some.injEq] at h1
              subst h1
              simp [handleWorkerMessage, h2]
  | interim text reqId =>
      simp only [messageRequestId, Option.some.injEq] at h1
      subst h1
      simp [handleWorkerMessage, h2]
  | segments reqId text segs =>
      simp only [messageRequestId, Option.some.injEq] at h1
      subst h1
      simp [handleWorkerMessage, h2]
  | result text reqId =>
      simp only [messageRequestId, Option.some.injEq] at h1
      subst h1
      simp [handleWorkerMessage, h2]
  | error err reqId =>
      cases reqId with
      | none => simp [messageRequestId] at h1
      | some r' =>
          simp only [messageRequestId, Option.some.injEq] at h1
          subst h1
          simp [handleWorkerMessage, h2]

/-- C1, witness for the amended theorem: a result message tagged one is
dropped while the current counter is two. -/
theorem stale_message_dropped_witness :
    messageRequestId (WorkerResponse.result "late" 1) = some 1 ∧
    (1 : ℕ) ≠ staleObserverState.activeRequestId ∧
    isDownloadProgress (WorkerResponse.result "late" 1) = false ∧
    handleWorkerMessage staleObserverState 0 (WorkerResponse.result "late" 1)
      = staleObserverState :=
  ⟨rfl, by decide, rfl,
    stale_message_dropped_unless_download_progress staleObserverState 0
      (WorkerResponse.result "late" 1) 1 rfl (by decide) rfl⟩

/-- C2: cancelTranscription strictly increments the request counter, resets
status to idle, clears the error message, clears every in-flight progress and
phase figure (progress, phase, chunk, byte and slice counters, ETA, transcribe
start time), and replaces the worker with a fresh instance whose only posted
request is the load request. -/
theorem cancelTranscription_resets_session (s : SessionState) :
    (cancelTranscription s).activeRequestId = s.activeRequestId + 1 ∧
    (cancelTranscription s).status = TranscriptionStatus.idle ∧
    (cancelTranscription s).error = none ∧
    (cancelTranscription s).progress = 0 ∧
    (cancelTranscription s).progressPhase = none ∧
    (cancelTranscription s).processedChunks = none ∧
    (cancelTranscription s).totalChunks = none ∧
    (cancelTranscription s).downloadedBytes = none ∧
    (cancelTranscription s).totalBytes = none ∧
    (cancelTranscription s).currentSlice = none ∧
    (cancelTranscription s).totalSlices = none ∧
    (cancelTranscription s).etaSeconds = none ∧
    (cancelTranscription s).loadingDetail = none ∧
    (cancelTranscription s).transcribeStartedAt = none ∧
    (cancelTranscription s).workerGen = s.workerGen + 1 ∧
    (cancelTranscription s).workerSent = [WorkerRequest.load] :=
  ⟨rfl, rfl, rfl, rfl, rfl, rfl, rfl, rfl, rfl, rfl, rfl, rfl, rfl, rfl, rfl, rfl⟩

/-- C8: resampling at equal input and output rates returns the input buffer
unchanged. -/
theorem resample_identity (S : List ℚ) (r : ℚ) :
    resampleMonoAudio S r r = S := by
  simp [resampleMonoAudio]

/-- C9: the structured JSON export payload is a pure projection of the
transcript state plus the clock reading; two builds from the same state agree
on every field, and builds at different clock readings agree on every field
except createdAt. -/
theorem export_payload_pure (s : SessionState) (t1 t2 : String) :
    buildJsonExportPayload s t1 = buildJsonExportPayload s t1 ∧
    (buildJsonExportPayload s t1).createdAt = t1 ∧
    (buildJsonExportPayload s t1).text = s.output ∧
    (buildJsonExportPayload s t1).segments = s.segments ∧
    (buildJsonExportPayload s t1).version = (buildJsonExportPayload s t2).version ∧
    (buildJsonExportPayload s t1).fileName = (buildJsonExportPayload s t2).fileName ∧
    (buildJsonExportPayload s t1).model = (buildJsonExportPayload s t2).model ∧
    (buildJsonExportPayload s t1).language = (buildJsonExportPayload s t2).language ∧
    (buildJsonExportPayload s t1).text = (buildJsonExportPayload s t2).text ∧
    (buildJsonExportPayload s t1).segments = (buildJsonExportPayload s t2).segments :=
  ⟨rfl, rfl, rfl, rfl, rfl, rfl, rfl, rfl, rfl, rfl⟩

/-- C3, counterexample: after a download-phase progress message reporting one
hundred of two hundred bytes and a following transcribe-phase progress
message, the session state is in the transcribe phase yet still holds the
download-phase byte figures, so the claim that no download-phase figures
remain is false. -/
theorem download_bytes_survive_phase_transition :
    (handleWorkerMessage (handleWorkerMessage idleState 0 currentDownloadMsg)
      1000 currentTranscribeMsg).progressPhase = some ProgressPhase.transcribing ∧
    (handleWorkerMessage (handleWorkerMessage idleState 0 currentDownloadMsg)
      1000 currentTranscribeMsg).downloadedBytes = some 100 ∧
    (handleWorkerMessage (handleWorkerMessage idleState 0 currentDownloadMsg)
      1000 currentTranscribeMsg).totalBytes = some 200 := by
  refine ⟨by decide, by decide, by decide⟩

/-- C3, amended: a transcribe-phase progress message sets the transcribe-phase
chunk counters solely from the message (and entering the download phase resets
the transcribe-phase chunk counters, ETA and start time), but the
downloaded-bytes and total-bytes counters of the download phase are carried
over unchanged into the transcribe-phase state; they are cleared only by
clearProgressState, a ready status, or cancellation. -/
theorem transcribe_progress_keeps_download_bytes
    (s : SessionState) (now prog : ℚ) (reqId : Option ℕ)
    (pc tc cs ts ld tt : Option ℚ)
    (hreq : reqId = none ∨ reqId = some s.activeRequestId) :
    ((handleWorkerMessage s now (WorkerResponse.progress
        ProgressPhase.transcribing prog reqId pc tc cs ts ld tt)).processedChunks = pc ∧
     (handleWorkerMessage s now (WorkerResponse.progress
        ProgressPhase.transcribing prog reqId pc tc cs ts ld tt)).totalChunks = tc ∧
     (handleWorkerMessage s now (WorkerResponse.progress
        ProgressPhase.transcribing prog reqId pc tc cs ts ld tt)).downloadedBytes
        = s.downloadedBytes ∧
     (handleWorkerMessage s now (WorkerResponse.progress
        ProgressPhase.transcribing prog reqId pc tc cs ts ld tt)).totalBytes
        = s.totalBytes) ∧
    ((handleWorkerMessage s now (WorkerResponse.progress
        ProgressPhase.download prog reqId pc tc cs ts ld tt)).processedChunks = none ∧
     (handleWorkerMessage s now (WorkerResponse.progress
        ProgressPhase.download prog reqId pc tc cs ts ld tt)).totalChunks = none ∧
     (handleWorkerMessage s now (WorkerResponse.progress
        ProgressPhase.download prog reqId pc tc cs ts ld tt)).etaSeconds = none ∧
     (handleWorkerMessage s now (WorkerResponse.progress
        ProgressPhase.download prog reqId pc tc cs ts ld tt)).transcribeStartedAt
        = none) := by
  have htr : ∀ m : WorkerResponse, m = WorkerResponse.progress
      ProgressPhase.transcribing prog reqId pc tc cs ts ld tt →
      handleWorkerMessage s now m
        = applyProgressMessage s now ProgressPhase.transcribing prog pc tc cs ts ld tt := by
    intro m hm
    subst hm
    rcases hreq with rfl | rfl
    · simp [handleWorkerMessage]
    · simp [handleWorkerMessage]
  have hdl : handleWorkerMessage s now (WorkerResponse.progress
      ProgressPhase.download prog reqId pc tc cs ts ld tt)
      = applyProgressMessage s now ProgressPhase.download prog pc tc cs ts ld tt := by
    rcases hreq with rfl | rfl
    · simp [handleWorkerMessage]
    · simp [handleWorkerMessage]
  rw [htr _ rfl, hdl]
  refine ⟨⟨?_, ?_, ?_, ?_⟩, by simp [applyProgressMessage], by simp [applyProgressMessage],
    by simp [applyProgressMessage], by simp [applyProgressMessage]⟩
  all_goals
    simp only [applyProgressMessage]
    rcases pc with _ | p <;> rcases tc with _ | t <;> simp <;> split <;> simp

/-- C3, witness for the amended theorem: handling the concrete transcribe
message after the concrete download message keeps the byte figures and takes
the chunk counters from the message. -/
theorem transcribe_progress_keeps_download_bytes_witness :
    ((some 0 : Option ℕ) = none ∨ (some 0 : Option ℕ)
        = some (handleWorkerMessage idleState 0 currentDownloadMsg).activeRequestId) ∧
    (handleWorkerMessage (handleWorkerMessage idleState 0 currentDownloadMsg)
        1000 currentTranscribeMsg).processedChunks = some 1 ∧
    (handleWorkerMessage (handleWorkerMessage idleState 0 currentDownloadMsg)
        1000 currentTranscribeMsg).downloadedBytes
      = (handleWorkerMessage idleState 0 currentDownloadMsg).downloadedBytes := by
  have h := transcribe_progress_keeps_download_bytes
    (handleWorkerMessage idleState 0 currentDownloadMsg) 1000 10 (some 0)
    (some 1) (some 4) none none none none (Or.inr (by decide))
  exact ⟨Or.inr (by decide), h.1.1, h.1.2.2.1⟩

/-- C4: an error message for the current request (or unscoped), and a
worker-level fault, set status to error, store the human-readable message,
clear all in-flight progress state, and leave the accumulated transcript
(output text and segments) exactly as it was. -/
theorem error_preserves_transcript
    (s : SessionState) (now : ℚ) (err : String) (reqId : Option ℕ) (fault : String)
    (hreq : reqId = none ∨ reqId = some s.activeRequestId) :
    ((handleWorkerMessage s now (WorkerResponse.error err reqId)).status
        = TranscriptionStatus.error ∧
     (handleWorkerMessage s now (WorkerResponse.error err reqId)).error = some err ∧
     (handleWorkerMessage s now (WorkerResponse.error err reqId)).progress = 0 ∧
     (handleWorkerMessage s now (WorkerResponse.error err reqId)).progressPhase = none ∧
     (handleWorkerMessage s now (WorkerResponse.error err reqId)).processedChunks = none ∧
     (handleWorkerMessage s now (WorkerResponse.error err reqId)).totalChunks = none ∧
     (handleWorkerMessage s now (WorkerResponse.error err reqId)).etaSeconds = none ∧
     (handleWorkerMessage s now (WorkerResponse.error err reqId)).downloadedBytes = none ∧
     (handleWorkerMessage s now (WorkerResponse.error err reqId)).totalBytes = none ∧
     (handleWorkerMessage s now (WorkerResponse.error err reqId)).currentSlice = none ∧
     (handleWorkerMessage s now (WorkerResponse.error err reqId)).totalSlices = none ∧
     (handleWorkerMessage s now (WorkerResponse.error err reqId)).transcribeStartedAt
        = none ∧
     (handleWorkerMessage s now (WorkerResponse.error err reqId)).output = s.output ∧
     (handleWorkerMessage s now (WorkerResponse.error err reqId)).segments
        = s.segments) ∧
    ((handleWorkerFault s fault).status = TranscriptionStatus.error ∧
     (handleWorkerFault s fault).error
        = some (strOrElse fault "Worker encountered an unexpected error.") ∧
     (handleWorkerFault s fault).progress = 0 ∧
     (handleWorkerFault s fault).progressPhase = none ∧
     (handleWorkerFault s fault).etaSeconds = none ∧
     (handleWorkerFault s fault).transcribeStartedAt = none ∧
     (handleWorkerFault s fault).output = s.output ∧
     (handleWorkerFault s fault).segments = s.segments) := by
  have he : handleWorkerMessage s now (WorkerResponse.error err reqId)
      = clearProgressState
          { s with status := TranscriptionStatus.error, error := some err } := by
    rcases hreq with rfl | rfl
    · simp [handleWorkerMessage]
    · simp [handleWorkerMessage]
  rw [he]
  refine ⟨⟨rfl, rfl, rfl, rfl, rfl, rfl, rfl, rfl, rfl, rfl, rfl, rfl, rfl, rfl⟩,
    rfl, rfl, rfl, rfl, rfl, rfl, rfl, rfl⟩

/-- C4, witness: an unscoped error on a state holding a streamed transcript
stores the message, clears progress, and keeps the transcript. -/
theorem error_preserves_transcript_witness :
    ((none : Option ℕ) = none ∨ (none : Option ℕ) = some richState.activeRequestId) ∧
    (handleWorkerMessage richState 0 (WorkerResponse.error "boom" none)).error
      = some "boom" ∧
    (handleWorkerMessage richState 0 (WorkerResponse.error "boom" none)).output
      = richState.output ∧
    (handleWorkerMessage richState 0 (WorkerResponse.error "boom" none)).segments
      = richState.segments ∧
    (handleWorkerMessage richState 0 (WorkerResponse.error "boom" none)).progress = 0 := by
  have h := error_preserves_transcript richState 0 "boom" none "ignored" (Or.inl rfl)
  exact ⟨Or.inl rfl, h.1.2.1, h.1.2.2.2.2.2.2.2.2.2.2.2.2.1, h.1.2.2.2.2.2.2.2.2.2.2.2.2.2,
    h.1.2.2.1⟩

/-- C5: during the transcribe phase, handling a progress message whose
counters report processed at least one and total at least processed sets a
numeric ETA equal to the ceiling of elapsed over processed times the remaining
units, where elapsed is the time since the recorded transcribe start (or this
event, when it is the first of the phase, in which case the elapsed time is
zero); a message with processed equal to zero or with a missing counter sets
no numeric ETA. -/
theorem eta_formula
    (s : SessionState) (now prog : ℚ) (reqId : Option ℕ)
    (p t : ℚ) (pc tc cs ts ld tt : Option ℚ)
    (hreq : reqId = none ∨ reqId = some s.activeRequestId) :
    (0 < p → p ≤ t →
      (handleWorkerMessage s now (WorkerResponse.progress
          ProgressPhase.transcribing prog reqId (some p) (some t) cs ts ld tt)).etaSeconds
        = some ⌈(now - s.transcribeStartedAt.getD now) / 1000 / p * (t - p)⌉) ∧
    (handleWorkerMessage s now (WorkerResponse.progress
        ProgressPhase.transcribing prog reqId (some 0) tc cs ts ld tt)).etaSeconds
      = none ∧
    (handleWorkerMessage s now (WorkerResponse.progress
        ProgressPhase.transcribing prog reqId none tc cs ts ld tt)).etaSeconds = none ∧
    (handleWorkerMessage s now (WorkerResponse.progress
        ProgressPhase.transcribing prog reqId pc none cs ts ld tt)).etaSeconds = none := by
  have htr : ∀ pc' tc' : Option ℚ,
      handleWorkerMessage s now (WorkerResponse.progress
        ProgressPhase.transcribing prog reqId pc' tc' cs ts ld tt)
        = applyProgressMessage s now ProgressPhase.transcribing prog pc' tc' cs ts ld tt := by
    intro pc' tc'
    rcases hreq with rfl | rfl
    · simp [handleWorkerMessage]
    · simp [handleWorkerMessage]
  refine ⟨?_, ?_, ?_, ?_⟩
  · intro hp hpt
    rw [htr]
    simp only [applyProgressMessage]
    rw [if_pos ⟨hp, hpt⟩]
    have hmax : max (t - p) 0 = t - p := max_eq_left (by linarith)
    simp [hmax]
  · rw [htr]
    simp only [applyProgressMessage]
    rcases tc with _ | t'
    · simp
    · simp
  · rw [htr]
    rcases tc with _ | t' <;> simp [applyProgressMessage]
  · rw [htr]
    rcases pc with _ | p' <;> simp [applyProgressMessage]

/-- C5, witness: at five seconds after the recorded start, two of ten chunks
processed gives an ETA of twenty seconds. -/
theorem eta_formula_witness :
    ((some 1 : Option ℕ) = none ∨ (some 1 : Option ℕ)
        = some transcribingState.activeRequestId) ∧
    (0 : ℚ) < 2 ∧ (2 : ℚ) ≤ 10 ∧
    (handleWorkerMessage transcribingState 5000 (WorkerResponse.progress
        ProgressPhase.transcribing 40 (some 1) (some 2) (some 10)
        none none none none)).etaSeconds = some 20 := by
  have h := (eta_formula transcribingState 5000 40 (some 1) 2 10 none none none none
      none none (Or.inr rfl)).1 (by norm_num) (by norm_num)
  refine ⟨Or.inr rfl, by norm_num, by norm_num, ?_⟩
  rw [h]
  norm_num [transcribingState, idleState]

/-- C7: for a buffer with at least two channels, downmixing yields a buffer of
the same length whose sample at each index is the arithmetic mean of that
index across all channels; a single-channel buffer passes its channel data
through unchanged. -/
theorem downmix_mean (b : AudioBuffer) (i : ℕ) (hi : i < b.length) :
    (downmixToMono b).length = b.length ∧
    (2 ≤ b.numberOfChannels →
      (downmixToMono b).getD i 0 =
        (∑ ch ∈ Finset.range b.numberOfChannels, b.channelData ch i)
          / (b.numberOfChannels : ℚ)) ∧
    (b.numberOfChannels = 1 → (downmixToMono b).getD i 0 = b.channelData 0 i) := by
  refine ⟨?_, ?_, ?_⟩
  · simp only [downmixToMono]
    split <;> simp
  · intro h2
    have hne : b.numberOfChannels ≠ 1 := by omega
    simp only [downmixToMono, if_neg hne]
    rw [getD_map_range _ _ _ hi, foldl_add_range]
  · intro h1
    simp only [downmixToMono, if_pos h1]
    rw [getD_map_range _ _ _ hi]

/-- C7, witness: the two-channel buffer with channels all one and all minus
one downmixes each sample to the mean, which is zero. -/
theorem downmix_mean_witness :
    0 < exampleStereoBuffer.length ∧
    2 ≤ exampleStereoBuffer.numberOfChannels ∧
    (downmixToMono exampleStereoBuffer).getD 0 0 =
      (∑ ch ∈ Finset.range exampleStereoBuffer.numberOfChannels,
        exampleStereoBuffer.channelData ch 0)
        / (exampleStereoBuffer.numberOfChannels : ℚ) ∧
    (downmixToMono exampleStereoBuffer).getD 0 0 = 0 := by
  have h := (downmix_mean exampleStereoBuffer 0 (by decide)).2.1 (by decide)
  refine ⟨by decide, by decide, h, ?_⟩
  rw [h]
  norm_num [exampleStereoBuffer, Finset.sum_range_succ]

/-- C6: at distinct positive rates, the resampled buffer has length
max one of the rounding of inputLength times outputRate over inputRate, and
each output sample is the linear interpolation of the input between the floor
of the source position i times inputRate over outputRate and the next index
clamped at the input's last index, weighted by the fractional part of the
source position. -/
theorem resample_length_and_interpolation
    (S : List ℚ) (rin rout : ℚ) (i : ℕ)
    (h1 : 0 < rin) (h2 : 0 < rout) (hne : rin ≠ rout) :
    (resampleMonoAudio S rin rout).length
      = (max 1 (jsRound ((S.length : ℚ) * rout / rin))).toNat ∧
    (i < (resampleMonoAudio S rin rout).length →
      (resampleMonoAudio S rin rout).getD i 0 =
        sampleAt S ⌊(i : ℚ) * rin / rout⌋
            * (1 - ((i : ℚ) * rin / rout - (⌊(i : ℚ) * rin / rout⌋ : ℚ)))
          + sampleAt S (min (⌊(i : ℚ) * rin / rout⌋ + 1) ((S.length : ℤ) - 1))
            * ((i : ℚ) * rin / rout - (⌊(i : ℚ) * rin / rout⌋ : ℚ))) := by
  have hsp : sourcePosition rin rout i = (i : ℚ) * rin / rout :=
    div_div_eq_mul_div _ _ _
  have hres : resampleMonoAudio S rin rout
      = (List.range (resampleOutputLength S.length rin rout).toNat).map fun j =>
          sampleAt S (lowerIndex rin rout j)
              * (1 - (sourcePosition rin rout j - (lowerIndex rin rout j : ℚ)))
            + sampleAt S (upperIndex S.length rin rout j)
              * (sourcePosition rin rout j - (lowerIndex rin rout j : ℚ)) := by
    simp only [resampleMonoAudio]
    rw [if_neg hne]
  constructor
  · rw [hres]
    simp [resampleOutputLength, mul_div_assoc]
  · intro hi
    rw [hres] at hi ⊢
    simp only [List.length_map, List.length_range] at hi
    rw [getD_map_range _ _ _ hi]
    simp only [lowerIndex, upperIndex, hsp]

/-- C6, witness: upsampling the buffer one, three from rate one to rate two
yields four samples, and the sample at index one interpolates halfway between
the two input samples, giving two. -/
theorem resample_interpolation_witness :
    (0 : ℚ) < 1 ∧ (0 : ℚ) < 2 ∧ (1 : ℚ) ≠ 2 ∧
    (resampleMonoAudio [1, 3] 1 2).length = 4 ∧
    (resampleMonoAudio [1, 3] 1 2).getD 1 0 = 2 := by
  have h := resample_length_and_interpolation [1, 3] 1 2 1 (by norm_num) (by norm_num)
    (by norm_num)
  have hlen : (resampleMonoAudio [1, 3] 1 2).length = 4 := by
    rw [h.1]
    norm_num [jsRound]
    decide
  have hval := h.2 (by rw [hlen]; norm_num)
  refine ⟨by norm_num, by norm_num, by norm_num, hlen, ?_⟩
  rw [hval]
  norm_num [sampleAt]

/-- C10: for a non-empty input buffer and positive rates, every interpolation
index computed by resampleMonoAudio is within the input's bounds: the source
position of each output index is strictly below the input length, so the lower
index is at least zero and both indices are at most the last input index. -/
theorem resample_indices_in_bounds
    (S : List ℚ) (rin rout : ℚ) (i : ℕ)
    (h1 : 0 < rin) (h2 : 0 < rout) (hS : S ≠ [])
    (hi : (i : ℤ) < resampleOutputLength S.length rin rout) :
    sourcePosition rin rout i < (S.length : ℚ) ∧
    0 ≤ lowerIndex rin rout i ∧
    lowerIndex rin rout i ≤ upperIndex S.length rin rout i ∧
    upperIndex S.length rin rout i ≤ (S.length : ℤ) - 1 := by
  have hr : 0 < rout / rin := div_pos h2 h1
  have hlen : 0 < S.length := List.length_pos.mpr hS
  have hkey : (i : ℚ) < (S.length : ℚ) * (rout / rin) := by
    rcases Nat.eq_zero_or_pos i with rfl | hipos
    · push_cast
      exact mul_pos (by exact_mod_cast hlen) hr
    · have hone : (1 : ℤ) ≤ (i : ℤ) := by exact_mod_cast hipos
      have hj : (i : ℤ) < jsRound ((S.length : ℚ) * (rout / rin)) := by
        rcases le_or_lt (jsRound ((S.length : ℚ) * (rout / rin))) 1 with hle | hlt
        · rw [resampleOutputLength, max_eq_left hle] at hi
          omega
        · rw [resampleOutputLength, max_eq_right hlt.le] at hi
          exact hi
      have hfl : ((jsRound ((S.length : ℚ) * (rout / rin))) : ℚ)
          ≤ (S.length : ℚ) * (rout / rin) + 1 / 2 := by
        rw [jsRound]
        exact Int.floor_le _
      have hcast : (i : ℚ) + 1 ≤ ((jsRound ((S.length : ℚ) * (rout / rin))) : ℚ) := by
        exact_mod_cast hj
      linarith
  have hsp_lt : sourcePosition rin rout i < (S.length : ℚ) := by
    rw [sourcePosition, div_lt_iff hr]
    exact hkey
  have hsp_nonneg : 0 ≤ sourcePosition rin rout i := by
    rw [sourcePosition]
    exact div_nonneg (by positivity) hr.le
  have hlow_nonneg : 0 ≤ lowerIndex rin rout i := by
    rw [lowerIndex]
    exact Int.le_floor.mpr (by exact_mod_cast hsp_nonneg)
  have hlow_lt : lowerIndex rin rout i < (S.length : ℤ) := by
    rw [lowerIndex]
    exact Int.floor_lt.mpr (by exact_mod_cast hsp_lt)
  refine ⟨hsp_lt, hlow_nonneg, ?_, ?_⟩
  · rw [upperIndex]
    exact le_min (by omega) (by omega)
  · rw [upperIndex]
    exact min_le_right _ _

/-- C10, witness: downsampling a two-sample buffer from rate three to rate two
produces one output index whose interpolation indices are within bounds. -/
theorem resample_indices_in_bounds_witness :
    (0 : ℤ) < resampleOutputLength ([1, 3] : List ℚ).length 3 2 ∧
    sourcePosition 3 2 0 < ((([1, 3] : List ℚ).length : ℚ)) ∧
    0 ≤ lowerIndex 3 2 0 ∧
    lowerIndex 3 2 0 ≤ upperIndex ([1, 3] : List ℚ).length 3 2 0 ∧
    upperIndex ([1, 3] : List ℚ).length 3 2 0 ≤ ((([1, 3] : List ℚ).length : ℤ)) - 1 := by
  have hi : (0 : ℤ) < resampleOutputLength ([1, 3] : List ℚ).length 3 2 := by
    norm_num [resampleOutputLength, jsRound]
  have h := resample_indices_in_bounds [1, 3] 3 2 0 (by norm_num) (by norm_num)
    (by simp) hi
  exact ⟨hi, h.1, h.2.1, h.2.2.1, h.2.2.2⟩

end AudioTranscription
